import Mathlib

set_option maxHeartbeats 1000000

/-!
Shallow embedding of `src/lib/google-generic-pass.ts` from the
`google-generic-pass-lib` repository: the Google Wallet generic-pass
builder, its validation pass, and the data model they operate on.

JavaScript optional fields (`x?: T` / possibly `undefined`) are modelled
as `Option`; JavaScript string truthiness (`if (s)`) is the test
`s ≠ ""` on a present string; `a || b` on strings picks `b` exactly when
`a` is absent or the empty string.  Numeric fields (latitude/longitude,
sortIndex) are modelled as `Int`; no claim depends on their arithmetic.
The open `[key: string]: unknown` extension map written by
`addCustomField` is not modelled: no claim refers to it and it is
disjoint from every typed field the claims mention.
-/

/-- Nested `defaultValue` record of a localized string: `{language, value}`. -/
structure LocalizedValue where
  language : String
  value : String
  deriving DecidableEq

/-- `LocalizedObject` interface: `{defaultValue: {language, value}}`. -/
structure LocalizedObject where
  defaultValue : LocalizedValue
  deriving DecidableEq

/-- `sourceUri` record of an image: `{uri}`. -/
structure SourceUri where
  uri : String
  deriving DecidableEq

/-- `ImageObject` interface: source URI plus optional `contentDescription`
(which the interface allows to be absent, although `createImageObject`
always fills it in). -/
structure ImageObject where
  sourceUri : SourceUri
  contentDescription : Option LocalizedObject
  deriving DecidableEq

/-- `TextModuleObject` interface: `{id, header?, body}`. -/
structure TextModuleObject where
  id : String
  header : Option String
  body : String
  deriving DecidableEq

/-- `ImageModuleObject` interface: `{id, mainImage}`. -/
structure ImageModuleObject where
  id : String
  mainImage : ImageObject
  deriving DecidableEq

/-- `BarcodeObject` interface: `{type, value, alternateText?}`.
`alternateText` is optional in the interface, hence `Option String`. -/
structure BarcodeObject where
  type : String
  value : String
  alternateText : Option String
  deriving DecidableEq

/-- One entry of `LinksModuleObject.uris`: `{uri, description, id}`. -/
structure LinkUri where
  uri : String
  description : String
  id : String
  deriving DecidableEq

/-- `LinksModuleObject` interface: `{uris: LinkUri[]}`. -/
structure LinksModuleObject where
  uris : List LinkUri
  deriving DecidableEq

/-- `LatLongPoint` interface; coordinates are JS numbers, modelled as `Int`. -/
structure LatLongPoint where
  latitude : Int
  longitude : Int
  deriving DecidableEq

/-- `TimeInterval` interface: `{start: {date}, end?: {date}}`; `end` is a
Lean keyword so the field is named `endDate`. -/
structure TimeInterval where
  start : String
  endDate : Option String
  deriving DecidableEq

/-- `labelValue` record of an info module: `{label, value}`. -/
structure LabelValue where
  label : String
  value : String
  deriving DecidableEq

/-- `InfoModuleData` interface: `{id, labelValue: {label, value}}`. -/
structure InfoModuleData where
  id : String
  labelValue : LabelValue
  deriving DecidableEq

/-- `AppTarget` interface: `{targetUri}`. -/
structure AppTarget where
  targetUri : String
  deriving DecidableEq

/-- `AppLinkInfo` interface: `{appLogoImage?, title, description?, appTarget}`. -/
structure AppLinkInfo where
  appLogoImage : Option ImageObject
  title : String
  description : Option String
  appTarget : AppTarget
  deriving DecidableEq

/-- `AppLinkData` interface: one optional `AppLinkInfo` per platform. -/
structure AppLinkData where
  androidAppLinkInfo : Option AppLinkInfo
  iosAppLinkInfo : Option AppLinkInfo
  webAppLinkInfo : Option AppLinkInfo
  deriving DecidableEq

/-- `GroupingInfo` interface: `{groupingId, sortIndex?}`. -/
structure GroupingInfo where
  groupingId : String
  sortIndex : Option Int
  deriving DecidableEq

/-- `FieldReference` interface: `{fieldPath}`. -/
structure FieldReference where
  fieldPath : String
  deriving DecidableEq

/-- `TemplateItemValue` interface: `{fields?}`. -/
structure TemplateItemValue where
  fields : Option (List FieldReference)
  deriving DecidableEq

/-- `TemplateItem` interface: `{firstValue?, secondValue?}`. -/
structure TemplateItem where
  firstValue : Option TemplateItemValue
  secondValue : Option TemplateItemValue
  deriving DecidableEq

/-- `TwoItemsInfo` interface: `{startItem?, endItem?}`. -/
structure TwoItemsInfo where
  startItem : Option TemplateItem
  endItem : Option TemplateItem
  deriving DecidableEq

/-- `ThreeItemsInfo` interface: `{startItem?, middleItem?, endItem?}`. -/
structure ThreeItemsInfo where
  startItem : Option TemplateItem
  middleItem : Option TemplateItem
  endItem : Option TemplateItem
  deriving DecidableEq

/-- `OneItemInfo` interface: `{item?}`. -/
structure OneItemInfo where
  item : Option TemplateItem
  deriving DecidableEq

/-- `CardRowTemplateInfo` interface: `{twoItems?, threeItems?, oneItem?}`. -/
structure CardRowTemplateInfo where
  twoItems : Option TwoItemsInfo
  threeItems : Option ThreeItemsInfo
  oneItem : Option OneItemInfo
  deriving DecidableEq

/-- `CardTemplateOverride` interface: `{cardRowTemplateInfos?}`. -/
structure CardTemplateOverride where
  cardRowTemplateInfos : Option (List CardRowTemplateInfo)
  deriving DecidableEq

/-- `ClassTemplateInfo` interface: `{cardTemplateOverride?}`. -/
structure ClassTemplateInfo where
  cardTemplateOverride : Option CardTemplateOverride
  deriving DecidableEq

/-- `GoogleGenericPassObject` interface: the per-user pass instance, in
the field order of the source interface. -/
structure GoogleGenericPassObject where
  id : String
  classId : String
  genericType : String
  hexBackgroundColor : Option String
  logo : Option ImageObject
  cardTitle : Option LocalizedObject
  header : Option LocalizedObject
  subheader : Option LocalizedObject
  textModulesData : Option (List TextModuleObject)
  linksModuleData : Option LinksModuleObject
  imageModulesData : Option (List ImageModuleObject)
  barcode : Option BarcodeObject
  heroImage : Option ImageObject
  validTimeInterval : Option TimeInterval
  locations : Option (List LatLongPoint)
  customInfoModules : Option (List InfoModuleData)
  additionalInfo : Option (List InfoModuleData)
  appLinkData : Option AppLinkData
  groupingInfo : Option GroupingInfo
  deriving DecidableEq

/-- `GoogleGenericPassClass` interface: the shared class/template record. -/
structure GoogleGenericPassClass where
  id : String
  issuerName : String
  reviewStatus : Option String
  logoImage : Option ImageObject
  heroImage : Option ImageObject
  hexBackgroundColor : Option String
  classTemplateInfo : Option ClassTemplateInfo
  deriving DecidableEq

/-- State of one `GoogleGenericPass` builder instance: its private fields
`passObject`, `passClass?`, `serviceAccountEmail?`, `privateKey?`. -/
structure GoogleGenericPass where
  passObject : GoogleGenericPassObject
  passClass : Option GoogleGenericPassClass
  serviceAccountEmail : Option String
  privateKey : Option String
  deriving DecidableEq

/-- A JavaScript string fails the source guard
`!value || value.trim() === ''` exactly when every one of its characters
is whitespace (the empty string vacuously included): `trim` removes
leading and trailing whitespace, so it returns `""` iff no
non-whitespace character occurs. -/
def isEmptyOrWhitespace (s : String) : Bool :=
  s.data.all Char.isWhitespace

/-- `ensureNonEmptyString(value, fallback)` from the source: returns the
fallback when the value is absent, empty, or trims to the empty string,
and the value itself otherwise.  (`!value` on a present string means
`value = ""`, which already satisfies `isEmptyOrWhitespace`.) -/
def ensureNonEmptyString (value : Option String) (fallback : String) : String :=
  match value with
  | none => fallback
  | some s => if isEmptyOrWhitespace s then fallback else s

/-- JavaScript `a || d` on an optional string: `d` when `a` is absent or
the empty string (the only falsy string), else the string itself. -/
def orDefault (a : Option String) (d : String) : String :=
  match a with
  | none => d
  | some s => if s = "" then d else s

/-- `createImageObject(imageUrl, description?)` from the source: always
attaches a `contentDescription`, using `description || 'Image'`. -/
def createImageObject (imageUrl : String) (description : Option String) : ImageObject :=
  { sourceUri := { uri := imageUrl },
    contentDescription := some
      { defaultValue := { language := "en-US", value := orDefault description "Image" } } }

namespace GoogleGenericPass

/-- The class constructor `new GoogleGenericPass(issuerId, passId, classId)`:
derives the two identifiers, defaults the category, and seeds
`additionalInfo` with the `default_info` entry. -/
def construct (issuerId passId classId : String) : GoogleGenericPass :=
  { passObject :=
      { id := issuerId ++ "." ++ passId
        classId := issuerId ++ "." ++ classId
        genericType := "GENERIC_TYPE_UNSPECIFIED"
        hexBackgroundColor := none
        logo := none
        cardTitle := none
        header := none
        subheader := none
        textModulesData := none
        linksModuleData := none
        imageModulesData := none
        barcode := none
        heroImage := none
        validTimeInterval := none
        locations := none
        customInfoModules := none
        additionalInfo := some
          [{ id := "default_info", labelValue := { label := "Info", value := "See details" } }]
        appLinkData := none
        groupingInfo := none }
    passClass := none
    serviceAccountEmail := none
    privateKey := none }

/-- `setServiceAccountCredentialsFromKeyData(serviceAccountEmail, privateKey)`. -/
def setServiceAccountCredentialsFromKeyData (p : GoogleGenericPass)
    (serviceAccountEmail privateKey : String) : GoogleGenericPass :=
  { p with serviceAccountEmail := some serviceAccountEmail, privateKey := some privateKey }

/-- `setPassClass(issuerName)`: replaces the pass class with a fresh one. -/
def setPassClass (p : GoogleGenericPass) (issuerName : String) : GoogleGenericPass :=
  { p with passClass := some {
        id := p.passObject.classId
        issuerName := issuerName
        reviewStatus := none
        logoImage := none
        heroImage := none
        hexBackgroundColor := none
        classTemplateInfo := none } }

/-- `setPassClassWithDetails(...)`: fresh pass class with optional extras,
each added only when its argument is truthy (present and non-empty). -/
def setPassClassWithDetails (p : GoogleGenericPass) (issuerName : String)
    (reviewStatus logoImageUrl logoDescription heroImageUrl heroDescription
      hexBackgroundColor : Option String) : GoogleGenericPass :=
  let pc : GoogleGenericPassClass :=
    { id := p.passObject.classId
      issuerName := ensureNonEmptyString (some issuerName) "Issuer"
      reviewStatus := none
      logoImage := none
      heroImage := none
      hexBackgroundColor := none
      classTemplateInfo := none }
  let pc := match reviewStatus with
    | some rs => if rs = "" then pc else { pc with reviewStatus := some rs }
    | none => pc
  let pc := match logoImageUrl with
    | some u => if u = "" then pc else { pc with logoImage := some (createImageObject u logoDescription) }
    | none => pc
  let pc := match heroImageUrl with
    | some u => if u = "" then pc else { pc with heroImage := some (createImageObject u heroDescription) }
    | none => pc
  let pc := match hexBackgroundColor with
    | some c => if c = "" then pc else { pc with hexBackgroundColor := some c }
    | none => pc
  { p with passClass := some pc }

/-- `setClassTemplateInfo(cardRowTemplates)`: throws
`'Pass class must be created before adding template info'` when no pass
class exists (before any mutation), else installs the layout override.
The thrown error is modelled as `Except.error` carrying the message, so
an error result leaves the caller with the original, unmodified state. -/
def setClassTemplateInfo (p : GoogleGenericPass)
    (cardRowTemplates : List CardRowTemplateInfo) : Except String GoogleGenericPass :=
  match p.passClass with
  | none => Except.error "Pass class must be created before adding template info"
  | some pc => Except.ok
      { p with passClass := some {
          pc with classTemplateInfo := some {
            cardTemplateOverride := some {
              cardRowTemplateInfos := some cardRowTemplates } } } }

/-- `createTwoItemsRow(startFieldPath?, endFieldPath?)`: a two-slot row
whose slots are omitted when the corresponding path is absent (a truthy
check in the source, so the empty string also omits the slot). -/
def createTwoItemsRow (startFieldPath endFieldPath : Option String) : CardRowTemplateInfo :=
  let mkItem : String → TemplateItem := fun path =>
    { firstValue := some { fields := some [{ fieldPath := path }] }, secondValue := none }
  { twoItems := some
      { startItem := match startFieldPath with
          | some s => if s = "" then none else some (mkItem s)
          | none => none
        endItem := match endFieldPath with
          | some s => if s = "" then none else some (mkItem s)
          | none => none }
    threeItems := none
    oneItem := none }

/-- `setBasicInfo(genericType, hexBackgroundColor?)`. -/
def setBasicInfo (p : GoogleGenericPass) (genericType : String)
    (hexBackgroundColor : Option String) : GoogleGenericPass :=
  let o := { p.passObject with genericType := genericType }
  let o := match hexBackgroundColor with
    | some c => if c = "" then o else { o with hexBackgroundColor := some c }
    | none => o
  { p with passObject := o }

/-- `setCardTitle(title)`. -/
def setCardTitle (p : GoogleGenericPass) (title : String) : GoogleGenericPass :=
  { p with passObject := { p.passObject with cardTitle := some {
      defaultValue := { language := "en-US",
                        value := ensureNonEmptyString (some title) "Card" } } } }

/-- `setHeaderInfo(header, subheader?)`: always sets the header; sets the
subheader only when the argument is truthy (present and non-empty). -/
def setHeaderInfo (p : GoogleGenericPass) (header : String)
    (subheader : Option String) : GoogleGenericPass :=
  let o := { p.passObject with header := some {
      defaultValue := { language := "en-US",
                        value := ensureNonEmptyString (some header) "Header" } } }
  let o := match subheader with
    | some s =>
        if s = "" then o
        else { o with subheader := some {
            defaultValue := { language := "en-US",
                              value := ensureNonEmptyString (some s) "Subheader" } } }
    | none => o
  { p with passObject := o }

/-- `addTextModule(id, body, header?)`: lazily initializes the list and
pushes `{id, body (fallback "Information"), header?}`; the header entry
is `undefined` unless the argument is truthy. -/
def addTextModule (p : GoogleGenericPass) (id body : String)
    (header : Option String) : GoogleGenericPass :=
  let existing := match p.passObject.textModulesData with
    | none => []
    | some l => l
  { p with passObject := { p.passObject with textModulesData := some (existing ++
      [{ id := id
         header := match header with
           | some h => if h = "" then none else some (ensureNonEmptyString (some h) "Section")
           | none => none
         body := ensureNonEmptyString (some body) "Information" }]) } }

/-- `setLogo(imageUrl, description?)`. -/
def setLogo (p : GoogleGenericPass) (imageUrl : String)
    (description : Option String) : GoogleGenericPass :=
  { p with passObject := { p.passObject with
      logo := some (createImageObject imageUrl description) } }

/-- `setHeroImage(imageUrl, description?)`. -/
def setHeroImage (p : GoogleGenericPass) (imageUrl : String)
    (description : Option String) : GoogleGenericPass :=
  { p with passObject := { p.passObject with
      heroImage := some (createImageObject imageUrl description) } }

/-- `addImageModule(id, imageUrl, description?)`: lazily initializes the
list and pushes `{id, mainImage}`. -/
def addImageModule (p : GoogleGenericPass) (id imageUrl : String)
    (description : Option String) : GoogleGenericPass :=
  let existing := match p.passObject.imageModulesData with
    | none => []
    | some l => l
  { p with passObject := { p.passObject with imageModulesData := some (existing ++
      [{ id := id, mainImage := createImageObject imageUrl description }]) } }

/-- `addAdditionalInfo(id, label, value)`: lazily initializes the list and
pushes an entry with call-time fallbacks "Info"/"Value". -/
def addAdditionalInfo (p : GoogleGenericPass) (id label value : String) : GoogleGenericPass :=
  let existing := match p.passObject.additionalInfo with
    | none => []
    | some l => l
  { p with passObject := { p.passObject with additionalInfo := some (existing ++
      [{ id := id
         labelValue := { label := ensureNonEmptyString (some label) "Info"
                         value := ensureNonEmptyString (some value) "Value" } }]) } }

/-- `addCustomInfoModule(id, label, value)`: same shape as
`addAdditionalInfo`, on `customInfoModules`. -/
def addCustomInfoModule (p : GoogleGenericPass) (id label value : String) : GoogleGenericPass :=
  let existing := match p.passObject.customInfoModules with
    | none => []
    | some l => l
  { p with passObject := { p.passObject with customInfoModules := some (existing ++
      [{ id := id
         labelValue := { label := ensureNonEmptyString (some label) "Info"
                         value := ensureNonEmptyString (some value) "Value" } }]) } }

/-- Empty `AppLinkData` record created by `this.passObject.appLinkData = {}`. -/
def emptyAppLinkData : AppLinkData :=
  { androidAppLinkInfo := none, iosAppLinkInfo := none, webAppLinkInfo := none }

/-- `addAndroidAppLink(title, targetUri, description?, logoImageUrl?, logoDescription?)`. -/
def addAndroidAppLink (p : GoogleGenericPass) (title targetUri : String)
    (description logoImageUrl logoDescription : Option String) : GoogleGenericPass :=
  let ald := match p.passObject.appLinkData with
    | none => emptyAppLinkData
    | some d => d
  let info : AppLinkInfo :=
    { appLogoImage := none
      title := ensureNonEmptyString (some title) "Android App"
      description := description
      appTarget := { targetUri := targetUri } }
  let info := match logoImageUrl with
    | some u => if u = "" then info
        else { info with appLogoImage := some (createImageObject u logoDescription) }
    | none => info
  { p with passObject := { p.passObject with
      appLinkData := some { ald with androidAppLinkInfo := some info } } }

/-- `addIosAppLink(title, targetUri, description?, logoImageUrl?, logoDescription?)`. -/
def addIosAppLink (p : GoogleGenericPass) (title targetUri : String)
    (description logoImageUrl logoDescription : Option String) : GoogleGenericPass :=
  let ald := match p.passObject.appLinkData with
    | none => emptyAppLinkData
    | some d => d
  let info : AppLinkInfo :=
    { appLogoImage := none
      title := ensureNonEmptyString (some title) "iOS App"
      description := description
      appTarget := { targetUri := targetUri } }
  let info := match logoImageUrl with
    | some u => if u = "" then info
        else { info with appLogoImage := some (createImageObject u logoDescription) }
    | none => info
  { p with passObject := { p.passObject with
      appLinkData := some { ald with iosAppLinkInfo := some info } } }

/-- `addWebAppLink(title, targetUri, description?, logoImageUrl?, logoDescription?)`. -/
def addWebAppLink (p : GoogleGenericPass) (title targetUri : String)
    (description logoImageUrl logoDescription : Option String) : GoogleGenericPass :=
  let ald := match p.passObject.appLinkData with
    | none => emptyAppLinkData
    | some d => d
  let info : AppLinkInfo :=
    { appLogoImage := none
      title := ensureNonEmptyString (some title) "Web App"
      description := description
      appTarget := { targetUri := targetUri } }
  let info := match logoImageUrl with
    | some u => if u = "" then info
        else { info with appLogoImage := some (createImageObject u logoDescription) }
    | none => info
  { p with passObject := { p.passObject with
      appLinkData := some { ald with webAppLinkInfo := some info } } }

/-- `setGroupingInfo(groupingId, sortIndex?)`: `sortIndex` is included
only when supplied (`sortIndex !== undefined` in the source). -/
def setGroupingInfo (p : GoogleGenericPass) (groupingId : String)
    (sortIndex : Option Int) : GoogleGenericPass :=
  { p with passObject := { p.passObject with
      groupingInfo := some { groupingId := groupingId, sortIndex := sortIndex } } }

/-- `setBarcode(value, type = 'QR_CODE', alternateText?)`: always stores an
`alternateText` string, `alternateText || ''`. -/
def setBarcode (p : GoogleGenericPass) (value type : String)
    (alternateText : Option String) : GoogleGenericPass :=
  { p with passObject := { p.passObject with barcode := some {
      type := type, value := value,
      alternateText := some (orDefault alternateText "") } } }

/-- `addLinks(links)`: replaces the whole links module with the given
links, each description passed through the `Link {id}` fallback. -/
def addLinks (p : GoogleGenericPass) (links : List LinkUri) : GoogleGenericPass :=
  { p with passObject := { p.passObject with linksModuleData := some {
      uris := links.map (fun link =>
        { uri := link.uri
          description := ensureNonEmptyString (some link.description) ("Link " ++ link.id)
          id := link.id }) } } }

/-- `addLocations(locations)`: replaces the locations list. -/
def addLocations (p : GoogleGenericPass) (locations : List LatLongPoint) : GoogleGenericPass :=
  { p with passObject := { p.passObject with locations := some locations } }

/-- `setValidTimeInterval(start, end?)`: always sets the start; the end is
included only when truthy. -/
def setValidTimeInterval (p : GoogleGenericPass) (start : String)
    (endArg : Option String) : GoogleGenericPass :=
  let ti : TimeInterval := { start := start, endDate := none }
  let ti := match endArg with
    | some e => if e = "" then ti else { ti with endDate := some e }
    | none => ti
  { p with passObject := { p.passObject with validTimeInterval := some ti } }

end GoogleGenericPass

/-!
The validation pass `validatePassObject` from the source.  In the
source it is a sequence of in-place mutations of `this.passObject`,
each block guarded by the presence of the one field it reads and
writes; since the blocks touch pairwise disjoint fields, the method is
equivalently a single record update built from one function per field,
and is embedded that way.  Guards of the form `x?.defaultValue` or
`linksModuleData && linksModuleData.uris` reduce to the presence of the
outer optional field because the inner field is mandatory in the
interface.
-/

/-- Validation of one localized display field (`cardTitle`, `header`,
`subheader`): when present, its `defaultValue.value` is passed through
`ensureNonEmptyString` with the field-specific fallback. -/
def validateLocalized (fallback : String) (x : Option LocalizedObject) :
    Option LocalizedObject :=
  match x with
  | none => none
  | some lo => some {
      defaultValue := { language := lo.defaultValue.language
                        value := ensureNonEmptyString (some lo.defaultValue.value) fallback } }

/-- Validation of one text module: body falls back to `Info {id}`, the
header entry is rebuilt as `header ? ensure(header, 'Section {id}') : undefined`. -/
def validateTextModule (m : TextModuleObject) : TextModuleObject :=
  { id := m.id
    header := match m.header with
      | some h => if h = "" then none
          else some (ensureNonEmptyString (some h) ("Section " ++ m.id))
      | none => none
    body := ensureNonEmptyString (some m.body) ("Info " ++ m.id) }

/-- Validation of one links-module entry: description falls back to `Link {id}`. -/
def validateLinkUri (l : LinkUri) : LinkUri :=
  { uri := l.uri
    description := ensureNonEmptyString (some l.description) ("Link " ++ l.id)
    id := l.id }

/-- Validation of the whole links module: each entry through `validateLinkUri`. -/
def validateLinksModule (lm : LinksModuleObject) : LinksModuleObject :=
  { uris := lm.uris.map validateLinkUri }

/-- Validation of one info module (`customInfoModules` / `additionalInfo`):
label and value fall back to `Label {id}` / `Value {id}`. -/
def validateInfoModule (m : InfoModuleData) : InfoModuleData :=
  { id := m.id
    labelValue := { label := ensureNonEmptyString (some m.labelValue.label) ("Label " ++ m.id)
                    value := ensureNonEmptyString (some m.labelValue.value) ("Value " ++ m.id) } }

/-- Validation of one optional image: when the image and its
`contentDescription` are present, the description value is passed through
`ensureNonEmptyString` with the given fallback; otherwise left alone. -/
def validateImage (fallback : String) (img : Option ImageObject) : Option ImageObject :=
  match img with
  | none => none
  | some im =>
    match im.contentDescription with
    | none => some im
    | some cd => some {
        sourceUri := im.sourceUri
        contentDescription := some {
          defaultValue := { language := cd.defaultValue.language
                            value := ensureNonEmptyString (some cd.defaultValue.value) fallback } } }

/-- Validation of one image module: its mandatory `mainImage` is treated
like an optional image with fallback `Image {id}`. -/
def validateImageModule (m : ImageModuleObject) : ImageModuleObject :=
  { id := m.id
    mainImage := match m.mainImage.contentDescription with
      | none => m.mainImage
      | some cd => {
          sourceUri := m.mainImage.sourceUri
          contentDescription := some {
            defaultValue := { language := cd.defaultValue.language
                              value := ensureNonEmptyString (some cd.defaultValue.value)
                                         ("Image " ++ m.id) } } } }

/-- Validation of the barcode: only a truthy (present, non-empty)
`alternateText` is rewritten, with fallback `'Scan this code'`. -/
def validateBarcode (b : Option BarcodeObject) : Option BarcodeObject :=
  match b with
  | none => none
  | some bc =>
    match bc.alternateText with
    | some alt =>
        if alt = "" then some bc
        else some { type := bc.type, value := bc.value,
                    alternateText := some (ensureNonEmptyString (some alt) "Scan this code") }
    | none => some bc

/-- Validation of one platform's app link: title through its fallback,
logo image through `validateImage` with the platform logo fallback. -/
def validateAppLinkInfo (titleFallback logoFallback : String) (info : AppLinkInfo) :
    AppLinkInfo :=
  { appLogoImage := validateImage logoFallback info.appLogoImage
    title := ensureNonEmptyString (some info.title) titleFallback
    description := info.description
    appTarget := info.appTarget }

/-- Validation of the whole `appLinkData` record, each platform with its
fallback pair from the source. -/
def validateAppLinkData (d : Option AppLinkData) : Option AppLinkData :=
  match d with
  | none => none
  | some ad => some {
      androidAppLinkInfo := ad.androidAppLinkInfo.map
        (validateAppLinkInfo "Android App" "Android App Logo")
      iosAppLinkInfo := ad.iosAppLinkInfo.map
        (validateAppLinkInfo "iOS App" "iOS App Logo")
      webAppLinkInfo := ad.webAppLinkInfo.map
        (validateAppLinkInfo "Web App" "Web App Logo") }

/-- `validatePassObject()` from the source, as a pure rewrite of the pass
instance record: every block of the method, in order, expressed as the
per-field validators above.  Fields the method never reads or writes
(`id`, `classId`, `genericType`, `hexBackgroundColor`,
`validTimeInterval`, `locations`, `groupingInfo`) are untouched. -/
def validatePassObject (o : GoogleGenericPassObject) : GoogleGenericPassObject :=
  { o with
    cardTitle := validateLocalized "Card" o.cardTitle
    header := validateLocalized "Header" o.header
    subheader := validateLocalized "Subheader" o.subheader
    textModulesData := o.textModulesData.map (List.map validateTextModule)
    linksModuleData := o.linksModuleData.map validateLinksModule
    customInfoModules := o.customInfoModules.map (List.map validateInfoModule)
    additionalInfo := o.additionalInfo.map (List.map validateInfoModule)
    logo := validateImage "Logo" o.logo
    heroImage := validateImage "Hero Image" o.heroImage
    imageModulesData := o.imageModulesData.map (List.map validateImageModule)
    barcode := validateBarcode o.barcode
    appLinkData := validateAppLinkData o.appLinkData }

/-!
Supporting lemmas about the fallback-substitution rule and the
per-field validators.
-/

/-- Appending anything to a non-blank string stays non-blank. -/
lemma not_blank_append_left (a b : String) (h : isEmptyOrWhitespace a = false) :
    isEmptyOrWhitespace (a ++ b) = false := by
  have h2 : a.data.all Char.isWhitespace = false := h
  simp [isEmptyOrWhitespace, String.data_append, List.all_append, h2]

/-- The result of the fallback rule is non-blank whenever the fallback is. -/
lemma ensureNonEmptyString_not_blank (v : Option String) (fb : String)
    (h : isEmptyOrWhitespace fb = false) :
    isEmptyOrWhitespace (ensureNonEmptyString v fb) = false := by
  cases v with
  | none => simpa [ensureNonEmptyString] using h
  | some s =>
      cases hs : isEmptyOrWhitespace s with
      | true => simpa [ensureNonEmptyString, hs] using h
      | false => simp [ensureNonEmptyString, hs]

/-- The result of the fallback rule is non-empty whenever the fallback is
non-blank. -/
lemma ensureNonEmptyString_ne_empty (v : Option String) (fb : String)
    (h : isEmptyOrWhitespace fb = false) :
    ensureNonEmptyString v fb ≠ "" := by
  have hnb := ensureNonEmptyString_not_blank v fb h
  intro hEq
  rw [hEq] at hnb
  exact absurd hnb (by decide)

/-- The fallback rule is idempotent whenever the fallback is non-blank. -/
lemma ensureNonEmptyString_idem (v : Option String) (fb : String)
    (h : isEmptyOrWhitespace fb = false) :
    ensureNonEmptyString (some (ensureNonEmptyString v fb)) fb =
      ensureNonEmptyString v fb := by
  have hnb := ensureNonEmptyString_not_blank v fb h
  generalize hE : ensureNonEmptyString v fb = e at hnb ⊢
  simp [ensureNonEmptyString, hnb]

/-- A blank argument is always replaced by the fallback. -/
lemma ensureNonEmptyString_of_blank (s fb : String) (h : isEmptyOrWhitespace s = true) :
    ensureNonEmptyString (some s) fb = fb := by
  simp [ensureNonEmptyString, h]

/-- A non-blank argument is kept verbatim. -/
lemma ensureNonEmptyString_of_not_blank (s fb : String) (h : isEmptyOrWhitespace s = false) :
    ensureNonEmptyString (some s) fb = s := by
  simp [ensureNonEmptyString, h]

/-- Mapping an idempotent function twice over a list is mapping it once. -/
lemma mapIdem {α : Type} (f : α → α) (h : ∀ x, f (f x) = f x) (l : List α) :
    (l.map f).map f = l.map f := by
  induction l with
  | nil => rfl
  | cons a t ih => simp [h a, ih]

/-- Mapping an idempotent function twice over an option is mapping it once. -/
lemma optionMapIdem {α : Type} (f : α → α) (h : ∀ x, f (f x) = f x) (x : Option α) :
    (x.map f).map f = x.map f := by
  cases x with
  | none => rfl
  | some a => simp [h a]

/-- Composition form of `mapIdem`, matching `List.map_map` normal forms. -/
lemma listMapCompIdem {α : Type} (f : α → α) (h : ∀ x, f (f x) = f x) (l : List α) :
    l.map (f ∘ f) = l.map f := by
  induction l with
  | nil => rfl
  | cons a t ih => simp [Function.comp, h a, ih]

/-- Composition form of `optionMapIdem`, matching `Option.map_map` normal forms. -/
lemma optionMapCompIdem {α : Type} (f : α → α) (h : ∀ x, f (f x) = f x) (x : Option α) :
    Option.map (f ∘ f) x = Option.map f x := by
  cases x with
  | none => rfl
  | some a => simp [Function.comp, h a]

/-- Idempotence of localized-field validation for a non-blank fallback. -/
lemma validateLocalized_idem (fb : String) (h : isEmptyOrWhitespace fb = false)
    (x : Option LocalizedObject) :
    validateLocalized fb (validateLocalized fb x) = validateLocalized fb x := by
  cases x with
  | none => rfl
  | some lo => simp [validateLocalized, ensureNonEmptyString_idem _ _ h]

/-- Idempotence of text-module validation. -/
lemma validateTextModule_idem (m : TextModuleObject) :
    validateTextModule (validateTextModule m) = validateTextModule m := by
  have hInfo : isEmptyOrWhitespace ("Info " ++ m.id) = false :=
    not_blank_append_left _ _ (by decide)
  have hSec : isEmptyOrWhitespace ("Section " ++ m.id) = false :=
    not_blank_append_left _ _ (by decide)
  cases hh : m.header with
  | none => simp [validateTextModule, hh, ensureNonEmptyString_idem _ _ hInfo]
  | some h0 =>
      by_cases he : h0 = ""
      · simp [validateTextModule, hh, he, ensureNonEmptyString_idem _ _ hInfo]
      · simp [validateTextModule, hh, he, ensureNonEmptyString_idem _ _ hInfo,
          ensureNonEmptyString_idem _ _ hSec, ensureNonEmptyString_ne_empty _ _ hSec]

/-- Idempotence of link-entry validation. -/
lemma validateLinkUri_idem (l : LinkUri) :
    validateLinkUri (validateLinkUri l) = validateLinkUri l := by
  have hLk : isEmptyOrWhitespace ("Link " ++ l.id) = false :=
    not_blank_append_left _ _ (by decide)
  simp [validateLinkUri, ensureNonEmptyString_idem _ _ hLk]

/-- Idempotence of links-module validation. -/
lemma validateLinksModule_idem (lm : LinksModuleObject) :
    validateLinksModule (validateLinksModule lm) = validateLinksModule lm := by
  simp [validateLinksModule, mapIdem validateLinkUri validateLinkUri_idem]

/-- Idempotence of info-module validation. -/
lemma validateInfoModule_idem (m : InfoModuleData) :
    validateInfoModule (validateInfoModule m) = validateInfoModule m := by
  have hL : isEmptyOrWhitespace ("Label " ++ m.id) = false :=
    not_blank_append_left _ _ (by decide)
  have hV : isEmptyOrWhitespace ("Value " ++ m.id) = false :=
    not_blank_append_left _ _ (by decide)
  simp [validateInfoModule, ensureNonEmptyString_idem _ _ hL,
    ensureNonEmptyString_idem _ _ hV]

/-- Idempotence of optional-image validation for a non-blank fallback. -/
lemma validateImage_idem (fb : String) (h : isEmptyOrWhitespace fb = false)
    (img : Option ImageObject) :
    validateImage fb (validateImage fb img) = validateImage fb img := by
  cases img with
  | none => rfl
  | some im =>
      cases hcd : im.contentDescription with
      | none => simp [validateImage, hcd]
      | some cd => simp [validateImage, hcd, ensureNonEmptyString_idem _ _ h]

/-- Idempotence of image-module validation. -/
lemma validateImageModule_idem (m : ImageModuleObject) :
    validateImageModule (validateImageModule m) = validateImageModule m := by
  have hIm : isEmptyOrWhitespace ("Image " ++ m.id) = false :=
    not_blank_append_left _ _ (by decide)
  cases hcd : m.mainImage.contentDescription with
  | none => simp [validateImageModule, hcd]
  | some cd => simp [validateImageModule, hcd, ensureNonEmptyString_idem _ _ hIm]

/-- Idempotence of barcode validation. -/
lemma validateBarcode_idem (b : Option BarcodeObject) :
    validateBarcode (validateBarcode b) = validateBarcode b := by
  have hb : isEmptyOrWhitespace "Scan this code" = false := by decide
  cases b with
  | none => rfl
  | some bc =>
      cases halt : bc.alternateText with
      | none => simp [validateBarcode, halt]
      | some alt =>
          by_cases he : alt = ""
          · simp [validateBarcode, halt, he]
          · simp [validateBarcode, halt, he, ensureNonEmptyString_idem _ _ hb,
              ensureNonEmptyString_ne_empty _ _ hb]

/-- Idempotence of one platform's app-link validation for non-blank fallbacks. -/
lemma validateAppLinkInfo_idem (tf lf : String) (ht : isEmptyOrWhitespace tf = false)
    (hl : isEmptyOrWhitespace lf = false) (info : AppLinkInfo) :
    validateAppLinkInfo tf lf (validateAppLinkInfo tf lf info) =
      validateAppLinkInfo tf lf info := by
  simp [validateAppLinkInfo, ensureNonEmptyString_idem _ _ ht, validateImage_idem lf hl]

/-- Idempotence of app-link-data validation. -/
lemma validateAppLinkData_idem (d : Option AppLinkData) :
    validateAppLinkData (validateAppLinkData d) = validateAppLinkData d := by
  cases d with
  | none => rfl
  | some ad =>
      have hA := validateAppLinkInfo_idem "Android App" "Android App Logo"
        (by decide) (by decide)
      have hI := validateAppLinkInfo_idem "iOS App" "iOS App Logo" (by decide) (by decide)
      have hW := validateAppLinkInfo_idem "Web App" "Web App Logo" (by decide) (by decide)
      simp [validateAppLinkData, optionMapIdem _ hA, optionMapIdem _ hI, optionMapIdem _ hW,
        optionMapCompIdem _ hA, optionMapCompIdem _ hI, optionMapCompIdem _ hW]

/-!
Claim theorems.
-/

/-- A pass instance with every optional field absent, used to evaluate
the frame property of the validator on a concrete input. -/
def barePassObject : GoogleGenericPassObject :=
  { id := "a.b"
    classId := "a.c"
    genericType := "GENERIC_TYPE_UNSPECIFIED"
    hexBackgroundColor := none
    logo := none
    cardTitle := none
    header := none
    subheader := none
    textModulesData := none
    linksModuleData := none
    imageModulesData := none
    barcode := none
    heroImage := none
    validTimeInterval := none
    locations := none
    customInfoModules := none
    additionalInfo := none
    appLinkData := none
    groupingInfo := none }

/-- C6: for all issuerId, passId, classId, the freshly constructed pass
instance has `id = "{issuerId}.{passId}"` and `classId =
"{issuerId}.{classId}"`. -/
theorem construct_derives_ids (issuerId passId classId : String) :
    (GoogleGenericPass.construct issuerId passId classId).passObject.id =
        issuerId ++ "." ++ passId
    ∧ (GoogleGenericPass.construct issuerId passId classId).passObject.classId =
        issuerId ++ "." ++ classId :=
  ⟨rfl, rfl⟩

/-- C7: for all constructor arguments, the fresh pass instance has exactly
one `additionalInfo` entry, with id `default_info`, label `Info`, value
`See details`. -/
theorem construct_seeds_default_info (issuerId passId classId : String) :
    (GoogleGenericPass.construct issuerId passId classId).passObject.additionalInfo =
      some [{ id := "default_info",
              labelValue := { label := "Info", value := "See details" } }] :=
  rfl

/-- C2: the validation pass is idempotent: running it twice on any pass
instance gives the same instance as running it once. -/
theorem validatePassObject_idempotent (o : GoogleGenericPassObject) :
    validatePassObject (validatePassObject o) = validatePassObject o := by
  have hTM := optionMapIdem _ (mapIdem validateTextModule validateTextModule_idem)
  have hTMc := optionMapCompIdem _ (mapIdem validateTextModule validateTextModule_idem)
  have hIM := optionMapIdem _ (mapIdem validateInfoModule validateInfoModule_idem)
  have hIMc := optionMapCompIdem _ (mapIdem validateInfoModule validateInfoModule_idem)
  have hImgM := optionMapIdem _ (mapIdem validateImageModule validateImageModule_idem)
  have hImgMc := optionMapCompIdem _ (mapIdem validateImageModule validateImageModule_idem)
  have hLM := optionMapIdem _ validateLinksModule_idem
  have hLMc := optionMapCompIdem _ validateLinksModule_idem
  simp [validatePassObject,
    validateLocalized_idem "Card" (by decide),
    validateLocalized_idem "Header" (by decide),
    validateLocalized_idem "Subheader" (by decide),
    hTM, hTMc, hIM, hIMc, hImgM, hImgMc, hLM, hLMc,
    validateImage_idem "Logo" (by decide),
    validateImage_idem "Hero Image" (by decide),
    validateBarcode_idem, validateAppLinkData_idem]

/-- C5: from any builder state without a pass class, `setClassTemplateInfo`
fails with the precondition message that the pass class must be created
first; the error is raised before any mutation, so the state is unchanged. -/
theorem setClassTemplateInfo_requires_passClass (p : GoogleGenericPass)
    (rows : List CardRowTemplateInfo) (h : p.passClass = none) :
    p.setClassTemplateInfo rows =
      Except.error "Pass class must be created before adding template info" := by
  simp [GoogleGenericPass.setClassTemplateInfo, h]

/-- Witness for C5 at a freshly constructed builder. -/
theorem setClassTemplateInfo_requires_passClass_witness :
    (GoogleGenericPass.construct "i" "p" "c").setClassTemplateInfo [] =
      Except.error "Pass class must be created before adding template info" :=
  setClassTemplateInfo_requires_passClass (GoogleGenericPass.construct "i" "p" "c") [] rfl

/-- C10: `setHeaderInfo` with an empty subheader leaves the subheader field
untouched (absent when it was absent), while a whitespace-only non-empty
subheader sets it to the fallback `Subheader`. -/
theorem setHeaderInfo_subheader_edge (p : GoogleGenericPass) (h : String) :
    ((p.setHeaderInfo h (some "")).passObject.subheader = p.passObject.subheader)
    ∧ (p.passObject.subheader = none →
        (p.setHeaderInfo h (some "")).passObject.subheader = none)
    ∧ (∀ s : String, isEmptyOrWhitespace s = true → s ≠ "" →
        (p.setHeaderInfo h (some s)).passObject.subheader =
          some { defaultValue := { language := "en-US", value := "Subheader" } }) := by
  refine ⟨?_, ?_, ?_⟩
  · simp [GoogleGenericPass.setHeaderInfo]
  · intro hn
    simp [GoogleGenericPass.setHeaderInfo, hn]
  · intro s hsb hne
    simp [GoogleGenericPass.setHeaderInfo, hne, ensureNonEmptyString_of_blank s _ hsb]

/-- Witness for C10 at a freshly constructed builder, subheader `" "`. -/
theorem setHeaderInfo_subheader_edge_witness :
    ((GoogleGenericPass.construct "i" "p" "c").setHeaderInfo "H"
        (some "")).passObject.subheader = none
    ∧ ((GoogleGenericPass.construct "i" "p" "c").setHeaderInfo "H"
        (some " ")).passObject.subheader =
      some { defaultValue := { language := "en-US", value := "Subheader" } } := by
  have h := setHeaderInfo_subheader_edge (GoogleGenericPass.construct "i" "p" "c") "H"
  exact ⟨h.2.1 rfl, h.2.2 " " (by decide) (by decide)⟩
/-- C9: the validation pass never introduces an optional field: every
optional substructure that is absent stays absent, and the fields it
never touches are returned unchanged. -/
theorem validatePassObject_frame (o : GoogleGenericPassObject) :
    ((validatePassObject o).id = o.id)
    ∧ ((validatePassObject o).classId = o.classId)
    ∧ ((validatePassObject o).genericType = o.genericType)
    ∧ ((validatePassObject o).hexBackgroundColor = o.hexBackgroundColor)
    ∧ ((validatePassObject o).validTimeInterval = o.validTimeInterval)
    ∧ ((validatePassObject o).locations = o.locations)
    ∧ ((validatePassObject o).groupingInfo = o.groupingInfo)
    ∧ (o.cardTitle = none → (validatePassObject o).cardTitle = none)
    ∧ (o.header = none → (validatePassObject o).header = none)
    ∧ (o.subheader = none → (validatePassObject o).subheader = none)
    ∧ (o.textModulesData = none → (validatePassObject o).textModulesData = none)
    ∧ (o.linksModuleData = none → (validatePassObject o).linksModuleData = none)
    ∧ (o.imageModulesData = none → (validatePassObject o).imageModulesData = none)
    ∧ (o.customInfoModules = none → (validatePassObject o).customInfoModules = none)
    ∧ (o.additionalInfo = none → (validatePassObject o).additionalInfo = none)
    ∧ (o.logo = none → (validatePassObject o).logo = none)
    ∧ (o.heroImage = none → (validatePassObject o).heroImage = none)
    ∧ (o.barcode = none → (validatePassObject o).barcode = none)
    ∧ (o.appLinkData = none → (validatePassObject o).appLinkData = none) := by
  refine ⟨rfl, rfl, rfl, rfl, rfl, rfl, rfl, ?_, ?_, ?_, ?_, ?_, ?_, ?_, ?_, ?_, ?_, ?_, ?_⟩
  all_goals intro hn
  all_goals simp [validatePassObject, validateLocalized, validateBarcode,
    validateAppLinkData, validateImage, hn]

/-- Witness for C9: on the all-absent pass instance, every optional field
is still absent after validation. -/
theorem validatePassObject_frame_witness :
    (validatePassObject barePassObject).cardTitle = none
    ∧ (validatePassObject barePassObject).header = none
    ∧ (validatePassObject barePassObject).subheader = none
    ∧ (validatePassObject barePassObject).textModulesData = none
    ∧ (validatePassObject barePassObject).linksModuleData = none
    ∧ (validatePassObject barePassObject).imageModulesData = none
    ∧ (validatePassObject barePassObject).customInfoModules = none
    ∧ (validatePassObject barePassObject).additionalInfo = none
    ∧ (validatePassObject barePassObject).logo = none
    ∧ (validatePassObject barePassObject).heroImage = none
    ∧ (validatePassObject barePassObject).barcode = none
    ∧ (validatePassObject barePassObject).appLinkData = none := by
  obtain ⟨-, -, -, -, -, -, -, h8, h9, h10, h11, h12, h13, h14, h15, h16, h17, h18, h19⟩ :=
    validatePassObject_frame barePassObject
  exact ⟨h8 rfl, h9 rfl, h10 rfl, h11 rfl, h12 rfl, h13 rfl, h14 rfl, h15 rfl,
    h16 rfl, h17 rfl, h18 rfl, h19 rfl⟩

/-- C4: `setBarcode` with the alternate text omitted stores the empty
string, the empty string survives validation unchanged (no `Scan this
code` fallback), and a barcode set by `setBarcode` always carries an
alternate-text string. -/
theorem setBarcode_empty_alternate_text (p : GoogleGenericPass) (v t : String)
    (alt : Option String) :
    ((p.setBarcode v t none).passObject.barcode =
        some { type := t, value := v, alternateText := some "" })
    ∧ ((validatePassObject (p.setBarcode v t none).passObject).barcode =
        some { type := t, value := v, alternateText := some "" })
    ∧ (∃ a : String, (p.setBarcode v t alt).passObject.barcode =
        some { type := t, value := v, alternateText := some a }) := by
  refine ⟨?_, ?_, ?_⟩
  · simp [GoogleGenericPass.setBarcode, orDefault]
  · simp [GoogleGenericPass.setBarcode, validatePassObject, validateBarcode, orDefault]
  · exact ⟨orDefault alt "", by simp [GoogleGenericPass.setBarcode]⟩
/-- C3 counterexample: with a link already present, a further `addLinks`
call does not preserve it: the links module afterwards holds exactly the
newly supplied links, not the earlier link followed by the new one. -/
theorem addLinks_discards_previous_links :
    ((((GoogleGenericPass.construct "a" "b" "c").addLinks
          [{ uri := "u1", description := "One", id := "l1" }]).addLinks
          [{ uri := "u2", description := "Two", id := "l2" }]).passObject.linksModuleData =
      some { uris := [{ uri := "u2", description := "Two", id := "l2" }] })
    ∧ ((((GoogleGenericPass.construct "a" "b" "c").addLinks
          [{ uri := "u1", description := "One", id := "l1" }]).addLinks
          [{ uri := "u2", description := "Two", id := "l2" }]).passObject.linksModuleData ≠
      some { uris := [{ uri := "u1", description := "One", id := "l1" },
                      { uri := "u2", description := "Two", id := "l2" }] }) := by
  constructor
  · decide
  · decide

/-- C3 amended: the sequence fields `textModulesData`, `imageModulesData`,
`customInfoModules` and `additionalInfo` are lazily initialized on first
insertion and appended to, preserving earlier entries and their order;
`addLinks`, however, replaces the whole links module with exactly the
supplied links, in their given order. -/
theorem sequence_fields_append_except_links (p : GoogleGenericPass)
    (i b url lab val : String) (ls : List LinkUri) :
    ((p.addTextModule i b none).passObject.textModulesData =
        some (p.passObject.textModulesData.getD [] ++
          [{ id := i, header := none,
             body := ensureNonEmptyString (some b) "Information" }]))
    ∧ ((p.addImageModule i url none).passObject.imageModulesData =
        some (p.passObject.imageModulesData.getD [] ++
          [{ id := i, mainImage := createImageObject url none }]))
    ∧ ((p.addCustomInfoModule i lab val).passObject.customInfoModules =
        some (p.passObject.customInfoModules.getD [] ++
          [{ id := i, labelValue := { label := ensureNonEmptyString (some lab) "Info",
                                      value := ensureNonEmptyString (some val) "Value" } }]))
    ∧ ((p.addAdditionalInfo i lab val).passObject.additionalInfo =
        some (p.passObject.additionalInfo.getD [] ++
          [{ id := i, labelValue := { label := ensureNonEmptyString (some lab) "Info",
                                      value := ensureNonEmptyString (some val) "Value" } }]))
    ∧ ((p.addLinks ls).passObject.linksModuleData =
        some { uris := ls.map (fun link =>
          { uri := link.uri
            description := ensureNonEmptyString (some link.description) ("Link " ++ link.id)
            id := link.id }) }) := by
  refine ⟨?_, ?_, ?_, ?_, ?_⟩
  · cases hT : p.passObject.textModulesData <;>
      simp [GoogleGenericPass.addTextModule, hT]
  · cases hI : p.passObject.imageModulesData <;>
      simp [GoogleGenericPass.addImageModule, hI]
  · cases hC : p.passObject.customInfoModules <;>
      simp [GoogleGenericPass.addCustomInfoModule, hC]
  · cases hA : p.passObject.additionalInfo <;>
      simp [GoogleGenericPass.addAdditionalInfo, hA]
  · simp [GoogleGenericPass.addLinks]
/-- C1: every display string field set from an empty or whitespace-only
argument serializes, after the validation pass, as its field-specific
fallback literal and never as the empty string: card title `Card`,
header `Header`, subheader `Subheader` (when set at all, i.e. for a
non-empty blank argument), text-module body `Information`, link
description `Link {id}`, and info-module label/value `Info`/`Value`
(for both `additionalInfo` and `customInfoModules`). -/
theorem display_fallbacks_on_blank_input (p : GoogleGenericPass)
    (s i u hdr : String) (sub : Option String)
    (hs : isEmptyOrWhitespace s = true) :
    ((validatePassObject (p.setCardTitle s).passObject).cardTitle =
        some { defaultValue := { language := "en-US", value := "Card" } })
    ∧ ((validatePassObject (p.setHeaderInfo s sub).passObject).header =
        some { defaultValue := { language := "en-US", value := "Header" } })
    ∧ (s ≠ "" →
        (validatePassObject (p.setHeaderInfo hdr (some s)).passObject).subheader =
          some { defaultValue := { language := "en-US", value := "Subheader" } })
    ∧ ((validatePassObject (p.addTextModule i s none).passObject).textModulesData =
        some ((p.passObject.textModulesData.getD []).map validateTextModule ++
          [{ id := i, header := none, body := "Information" }]))
    ∧ ((validatePassObject
          (p.addLinks [{ uri := u, description := s, id := i }]).passObject).linksModuleData =
        some { uris := [{ uri := u, description := "Link " ++ i, id := i }] })
    ∧ ((validatePassObject (p.addAdditionalInfo i s s).passObject).additionalInfo =
        some ((p.passObject.additionalInfo.getD []).map validateInfoModule ++
          [{ id := i, labelValue := { label := "Info", value := "Value" } }]))
    ∧ ((validatePassObject (p.addCustomInfoModule i s s).passObject).customInfoModules =
        some ((p.passObject.customInfoModules.getD []).map validateInfoModule ++
          [{ id := i, labelValue := { label := "Info", value := "Value" } }])) := by
  have kCard : ensureNonEmptyString (some "Card") "Card" = "Card" := by decide
  have kHeader : ensureNonEmptyString (some "Header") "Header" = "Header" := by decide
  have kSub : ensureNonEmptyString (some "Subheader") "Subheader" = "Subheader" := by decide
  have kInfo : ensureNonEmptyString (some "Information") ("Info " ++ i) = "Information" :=
    ensureNonEmptyString_of_not_blank _ _ (by decide)
  have kLink : ensureNonEmptyString (some ("Link " ++ i)) ("Link " ++ i) = "Link " ++ i :=
    ensureNonEmptyString_of_not_blank _ _ (not_blank_append_left _ _ (by decide))
  have kIL : ensureNonEmptyString (some "Info") ("Label " ++ i) = "Info" :=
    ensureNonEmptyString_of_not_blank _ _ (by decide)
  have kIV : ensureNonEmptyString (some "Value") ("Value " ++ i) = "Value" :=
    ensureNonEmptyString_of_not_blank _ _ (by decide)
  refine ⟨?_, ?_, ?_, ?_, ?_, ?_, ?_⟩
  · simp [GoogleGenericPass.setCardTitle, validatePassObject, validateLocalized,
      ensureNonEmptyString_of_blank s _ hs, kCard]
  · rcases sub with _ | s2
    · simp [GoogleGenericPass.setHeaderInfo, validatePassObject, validateLocalized,
        ensureNonEmptyString_of_blank s _ hs, kHeader]
    · by_cases h2 : s2 = "" <;>
        simp [GoogleGenericPass.setHeaderInfo, validatePassObject, validateLocalized, h2,
          ensureNonEmptyString_of_blank s _ hs, kHeader]
  · intro hne
    simp [GoogleGenericPass.setHeaderInfo, validatePassObject, validateLocalized, hne,
      ensureNonEmptyString_of_blank s _ hs, kSub]
  · cases hT : p.passObject.textModulesData <;>
      simp [GoogleGenericPass.addTextModule, hT, validatePassObject, validateTextModule,
        ensureNonEmptyString_of_blank s _ hs, kInfo]
  · simp [GoogleGenericPass.addLinks, validatePassObject, validateLinksModule,
      validateLinkUri, ensureNonEmptyString_of_blank s _ hs, kLink]
  · cases hA : p.passObject.additionalInfo <;>
      simp [GoogleGenericPass.addAdditionalInfo, hA, validatePassObject, validateInfoModule,
        ensureNonEmptyString_of_blank s _ hs, kIL, kIV]
  · cases hC : p.passObject.customInfoModules <;>
      simp [GoogleGenericPass.addCustomInfoModule, hC, validatePassObject, validateInfoModule,
        ensureNonEmptyString_of_blank s _ hs, kIL, kIV]

/-- Witness for C1 at a freshly constructed builder and the blank string `" "`. -/
theorem display_fallbacks_on_blank_input_witness :
    ((validatePassObject
        ((GoogleGenericPass.construct "1" "2" "3").setCardTitle " ").passObject).cardTitle =
      some { defaultValue := { language := "en-US", value := "Card" } })
    ∧ ((validatePassObject
        ((GoogleGenericPass.construct "1" "2" "3").setHeaderInfo "H"
          (some " ")).passObject).subheader =
      some { defaultValue := { language := "en-US", value := "Subheader" } }) := by
  have h := display_fallbacks_on_blank_input (GoogleGenericPass.construct "1" "2" "3")
    " " "x" "u" "H" none (by decide)
  exact ⟨h.1, h.2.2.1 (by decide)⟩
/-- C8: every image-setting operation stores the image produced by
`createImageObject`, which always carries a `contentDescription`: the
literal `Image` when no description is supplied, and the supplied
string verbatim when it is non-empty.  Shown for the pass logo, the
hero image, image modules, the Android app-link logo and the class
logo image (the iOS/web app links and the class hero image call the
same `createImageObject`). -/
theorem images_always_described (p : GoogleGenericPass)
    (url i t uri nm d : String) (dOpt : Option String)
    (hd : d ≠ "") (hurl : url ≠ "") :
    ((createImageObject url none).contentDescription =
        some { defaultValue := { language := "en-US", value := "Image" } })
    ∧ ((createImageObject url (some d)).contentDescription =
        some { defaultValue := { language := "en-US", value := d } })
    ∧ ((createImageObject url dOpt).contentDescription.isSome = true)
    ∧ ((p.setLogo url dOpt).passObject.logo = some (createImageObject url dOpt))
    ∧ ((p.setHeroImage url dOpt).passObject.heroImage = some (createImageObject url dOpt))
    ∧ ((p.addImageModule i url dOpt).passObject.imageModulesData =
        some (p.passObject.imageModulesData.getD [] ++
          [{ id := i, mainImage := createImageObject url dOpt }]))
    ∧ (((p.addAndroidAppLink t uri none (some url) dOpt).passObject.appLinkData.bind
          (fun a => a.androidAppLinkInfo)).bind (fun x => x.appLogoImage) =
        some (createImageObject url dOpt))
    ∧ (((p.setPassClassWithDetails nm none (some url) dOpt none none
          none).passClass.map (fun pc => pc.logoImage)).getD none =
        some (createImageObject url dOpt)) := by
  refine ⟨?_, ?_, ?_, ?_, ?_, ?_, ?_, ?_⟩
  · simp [createImageObject, orDefault]
  · simp [createImageObject, orDefault, hd]
  · simp [createImageObject]
  · simp [GoogleGenericPass.setLogo]
  · simp [GoogleGenericPass.setHeroImage]
  · cases hI : p.passObject.imageModulesData <;>
      simp [GoogleGenericPass.addImageModule, hI]
  · simp [GoogleGenericPass.addAndroidAppLink, hurl]
  · simp [GoogleGenericPass.setPassClassWithDetails, hurl]

/-- Witness for C8 at a freshly constructed builder with concrete strings. -/
theorem images_always_described_witness :
    ((createImageObject "http" none).contentDescription =
        some { defaultValue := { language := "en-US", value := "Image" } })
    ∧ ((createImageObject "http" (some "Logo")).contentDescription =
        some { defaultValue := { language := "en-US", value := "Logo" } })
    ∧ (((GoogleGenericPass.construct "1" "2" "3").setLogo "http"
          (some "Logo")).passObject.logo = some (createImageObject "http" (some "Logo"))) := by
  have h := images_always_described (GoogleGenericPass.construct "1" "2" "3")
    "http" "i" "t" "u" "n" "Logo" (some "Logo") (by decide) (by decide)
  exact ⟨h.1, h.2.1, h.2.2.2.1⟩
